import Mathlib

/-!
Verification development for the OBS-Overlays stream-automation server
(`OBS-Overlays/server.py`, `OBS-Overlays/config.py`).

The Python source is embedded shallowly:
  * Python `str` values are modelled as `List Char`;
  * Python `float` time values (`time.time()`) are idealised as `ℚ`;
  * dictionaries keyed by strings are association lists;
  * `socketio.emit(...)` calls are modelled as values of an `Event` type
    collected in the function result;
  * results of external network calls (Twitch clip API, OBS websocket,
    FEBRUARY11 HTTP proxy) are passed in as explicit oracle parameters.
-/

/-- Convert a Lean string literal to the `List Char` representation used for
Python strings throughout this development. -/
def chars (s : String) : List Char := s.data

/-- Python's whitespace set for `str.split()` / `str.strip()` (ASCII part:
space, tab, newline, carriage return, vertical tab, form feed; the exotic
Unicode whitespace code points are not modelled). -/
def pyIsSpace (c : Char) : Bool :=
  c = ' ' || c = '\t' || c = '\n' || c = '\r' || c = '\x0b' || c = '\x0c'

/-- Python `str.lstrip()`. -/
def pyLstrip (l : List Char) : List Char := l.dropWhile pyIsSpace

/-- Python `str.rstrip()`. -/
def pyRstrip (l : List Char) : List Char :=
  (l.reverse.dropWhile pyIsSpace).reverse

/-- Python `str.strip()`. -/
def pyStrip (l : List Char) : List Char := pyLstrip (pyRstrip l)

/-- Auxiliary scanner for `str.split()`: `acc` holds the reversed chars of the
word currently being read. -/
def splitWsAux : List Char → List Char → List (List Char)
  | [], [] => []
  | [], acc => [acc.reverse]
  | c :: rest, acc =>
      if pyIsSpace c then
        match acc with
        | [] => splitWsAux rest []
        | _ => acc.reverse :: splitWsAux rest []
      else splitWsAux rest (c :: acc)

/-- Python `str.split()` with no argument: split on runs of whitespace,
dropping empty pieces. -/
def pySplitWs (l : List Char) : List (List Char) := splitWsAux l []

/-- Python `" ".join(words)`. -/
def joinSpace : List (List Char) → List Char
  | [] => []
  | [w] => w
  | w :: w' :: ws => w ++ ' ' :: joinSpace (w' :: ws)

/-- Does `l` start with `p`? (helper for substring containment). -/
def startsWithL : List Char → List Char → Bool
  | _, [] => true
  | [], _ :: _ => false
  | c :: cs, d :: ds => c = d && startsWithL cs ds

/-- Python `pat in hay` for strings: contiguous substring containment. -/
def containsSub : List Char → List Char → Bool
  | hay, pat =>
    match hay with
    | [] => startsWithL [] pat
    | _ :: t => startsWithL hay pat || containsSub t pat

-- ──────────────────────────────────────────────
-- AUTO-CLIP DETECTION  (server.py lines 111-116, 1040-1079; config.py 107-109)
-- ──────────────────────────────────────────────

/-- `config.CLIP_SPAM_THRESHOLD` (config.py line 107). -/
def CLIP_SPAM_THRESHOLD : Nat := 15

/-- `config.CLIP_WINDOW_SECONDS` (config.py line 108). -/
def CLIP_WINDOW_SECONDS : ℚ := 10

/-- `config.CLIP_TRIGGER_WORDS` (config.py line 109). -/
def CLIP_TRIGGER_WORDS : List (List Char) :=
  [chars "CLIP", chars "clip", chars "POGGERS", chars "POG",
   chars "LUL", chars "LMAO", chars "OMEGALUL"]

/-- The module-level clip-detector state of server.py:
`last_clip_time` (line 116, initially `0`) and the contents of the
`clip_message_times` ring buffer (line 115, `deque(maxlen=100)`), newest
entries appended by the chat handler before `check_clip_trigger` runs. -/
structure ClipState where
  last_clip_time : ℚ
  clip_message_times : List ℚ
deriving DecidableEq, Repr

/-- Result of `create_twitch_clip()` (server.py lines 984-1037): `none` when
the call failed or credentials are missing, otherwise clip id and edit URL. -/
structure ClipResult where
  clip_id : List Char
  edit_url : List Char
deriving DecidableEq, Repr

/-- Payload of the `auto_clip` broadcast (server.py lines 1064-1075). -/
structure ClipPayload where
  message_count : Nat
  trigger : List Char
  clip_id : Option (List Char)
  edit_url : Option (List Char)
  created : Bool
deriving DecidableEq, Repr

/-- The decision/re-arm stage of `check_clip_trigger` (server.py lines
1044-1058): the early cooldown return, the trigger-word test, the
trailing-window count, and — on fire — the `last_clip_time = now` assignment,
all of which happen before `create_twitch_clip()` is invoked on line 1062.
Returns (fired, recent_count, updated state).  The locals `cutoff` and
`recent_count` of lines 1054-1055 are rendered by `clip_recent_count`. -/
def clip_recent_count (now : ℚ) (st : ClipState) : Nat :=
  (st.clip_message_times.filter fun t => now - CLIP_WINDOW_SECONDS < t).length

def clip_fire_decision (message_text : List Char) (now : ℚ) (st : ClipState) :
    Bool × Nat × ClipState :=
  if now - st.last_clip_time < 30 then (false, 0, st)
  else if !(CLIP_TRIGGER_WORDS.any fun w => containsSub message_text w) then (false, 0, st)
  else if CLIP_SPAM_THRESHOLD ≤ clip_recent_count now st then
    (true, clip_recent_count now st, { st with last_clip_time := now })
  else (false, clip_recent_count now st, st)

/-- Events emitted through `socketio.emit` (modelled; only the topics the
claims mention carry their payloads). -/
inductive ClipEvent where
  | autoClip (p : ClipPayload)
deriving DecidableEq, Repr

/-- `check_clip_trigger(message_text, now)` (server.py lines 1040-1079).
`clip_result` is the outcome of the external `create_twitch_clip()` call,
which the code performs (line 1062) strictly after `last_clip_time` has been
re-armed (line 1058); the returned state is the state in effect while that
external call runs.  Returns (fired, state, emitted events). -/
def check_clip_trigger (message_text : List Char) (now : ℚ) (st : ClipState)
    (clip_result : Option ClipResult) : Bool × ClipState × List ClipEvent :=
  match clip_fire_decision message_text now st with
  | (false, _, st') => (false, st', [])
  | (true, recent_count, st') =>
      let payload : ClipPayload :=
        { message_count := recent_count
          trigger := message_text.take 50
          clip_id := clip_result.map (·.clip_id)
          edit_url := clip_result.map (·.edit_url)
          created := clip_result.isSome }
      (true, st', [ClipEvent.autoClip payload])

/-- Characterization of the fire decision (shared helper). -/
theorem clip_fire_characterization (message_text : List Char) (now : ℚ) (st : ClipState)
    (clip_result : Option ClipResult) :
    (check_clip_trigger message_text now st clip_result).1 = true ↔
      (30 ≤ now - st.last_clip_time ∧
       (CLIP_TRIGGER_WORDS.any fun w => containsSub message_text w) = true ∧
       15 ≤ (st.clip_message_times.filter fun t => now - 10 < t).length) := by
  unfold check_clip_trigger clip_fire_decision clip_recent_count
  rcases lt_or_le (now - st.last_clip_time) 30 with h | h
  · simp [h, not_le.mpr h]
  · rw [if_neg (not_lt.mpr h)]
    cases htrig : (CLIP_TRIGGER_WORDS.any fun w => containsSub message_text w) with
    | false => simp [htrig, h]
    | true =>
        simp only [htrig, Bool.not_true]
        rcases le_or_lt CLIP_SPAM_THRESHOLD
            ((st.clip_message_times.filter fun t => now - CLIP_WINDOW_SECONDS < t).length)
            with hc | hc
        · rw [if_pos hc]
          simp only [CLIP_SPAM_THRESHOLD, CLIP_WINDOW_SECONDS] at hc ⊢
          simp [h, hc]
        · rw [if_neg (not_le.mpr hc)]
          simp only [CLIP_SPAM_THRESHOLD, CLIP_WINDOW_SECONDS] at hc ⊢
          simp [h, not_le.mpr hc]

/-- **C2.** `check_clip_trigger(message_text, now)` fires iff (a) at least 30
seconds have elapsed since the last fire, (b) `message_text` contains one of
the configured trigger words as a case-sensitive substring, and (c) the count
of recorded arrival timestamps strictly newer than `now − 10` is at least the
spam threshold 15. -/
theorem c2_clip_fire_iff (message_text : List Char) (now : ℚ) (st : ClipState)
    (clip_result : Option ClipResult) :
    (check_clip_trigger message_text now st clip_result).1 = true ↔
      (30 ≤ now - st.last_clip_time ∧
       (CLIP_TRIGGER_WORDS.any fun w => containsSub message_text w) = true ∧
       15 ≤ (st.clip_message_times.filter fun t => now - 10 < t).length) :=
  clip_fire_characterization message_text now st clip_result

/-- Witness for `c2_clip_fire_iff` at a concrete firing input. -/
theorem c2_clip_fire_iff_witness :
    (check_clip_trigger (chars "CLIP THAT") 100
      ⟨0, [95, 95, 96, 96, 97, 97, 98, 98, 99, 99, 99, 100, 100, 100, 100]⟩
      none).1 = true :=
  (c2_clip_fire_iff (chars "CLIP THAT") 100
      ⟨0, [95, 95, 96, 96, 97, 97, 98, 98, 99, 99, 99, 100, 100, 100, 100]⟩
      none).mpr ⟨by norm_num, by decide, by norm_num [List.filter]⟩

/-- A decision that does not fire leaves the state untouched. -/
theorem clip_fire_decision_state_of_no_fire (msg : List Char) (now : ℚ) (st : ClipState)
    (h : (clip_fire_decision msg now st).1 = false) :
    (clip_fire_decision msg now st).2.2 = st := by
  unfold clip_fire_decision at h ⊢
  split_ifs at h ⊢ <;> simp_all

/-- The fire decision does not depend on the external clip-call result. -/
theorem check_clip_trigger_fst (msg : List Char) (now : ℚ) (st : ClipState)
    (r : Option ClipResult) :
    (check_clip_trigger msg now st r).1 = (clip_fire_decision msg now st).1 := by
  unfold check_clip_trigger
  rcases h : clip_fire_decision msg now st with ⟨fired, cnt, st'⟩
  cases fired <;> simp [h]

/-- The state update does not depend on the external clip-call result. -/
theorem check_clip_trigger_state (msg : List Char) (now : ℚ) (st : ClipState)
    (r : Option ClipResult) :
    (check_clip_trigger msg now st r).2.1 = (clip_fire_decision msg now st).2.2 := by
  unfold check_clip_trigger
  rcases h : clip_fire_decision msg now st with ⟨fired, cnt, st'⟩
  cases fired <;> simp [h]

/-- A fired decision re-arms the quiet period: the resulting state carries
`last_clip_time = now`. -/
theorem clip_fire_decision_rearm (msg : List Char) (now : ℚ) (st : ClipState)
    (h : (clip_fire_decision msg now st).1 = true) :
    (clip_fire_decision msg now st).2.2.last_clip_time = now := by
  unfold clip_fire_decision at h ⊢
  split_ifs at h ⊢
  simp_all

/-- **C3.** When the detector fires at `now`, the returned state (the state in
effect while the external `create_twitch_clip()` call runs) already has
`last_clip_time = now`; the decision and the state are independent of the
external call's result; and any later observation at `now'` with
`now' − now < 30` does not fire and leaves the state unchanged — in
particular a 16th qualifying message in the same window cannot fire again. -/
theorem c3_rearm_and_single_fire (msg : List Char) (now : ℚ) (st : ClipState)
    (r r' : Option ClipResult) :
    ((check_clip_trigger msg now st r).1 = (check_clip_trigger msg now st r').1) ∧
    ((check_clip_trigger msg now st r).2.1 = (check_clip_trigger msg now st r').2.1) ∧
    ((check_clip_trigger msg now st r).1 = true →
       (check_clip_trigger msg now st r).2.1.last_clip_time = now) ∧
    (∀ (msg' : List Char) (now' : ℚ) (r'' : Option ClipResult),
       (check_clip_trigger msg now st r).1 = true → now' - now < 30 →
       (check_clip_trigger msg' now' (check_clip_trigger msg now st r).2.1 r'').1 = false ∧
       (check_clip_trigger msg' now' (check_clip_trigger msg now st r).2.1 r'').2.1 =
         (check_clip_trigger msg now st r).2.1) := by
  refine ⟨by rw [check_clip_trigger_fst, check_clip_trigger_fst],
          by rw [check_clip_trigger_state, check_clip_trigger_state], ?_, ?_⟩
  · intro h
    rw [check_clip_trigger_state]
    exact clip_fire_decision_rearm msg now st (by rwa [check_clip_trigger_fst] at h)
  · intro msg' now' r'' hfire hlt
    rw [check_clip_trigger_fst msg now st r] at hfire
    have hlast : (check_clip_trigger msg now st r).2.1.last_clip_time = now := by
      rw [check_clip_trigger_state]
      exact clip_fire_decision_rearm msg now st hfire
    have hgate : now' - (check_clip_trigger msg now st r).2.1.last_clip_time < 30 := by
      rw [hlast]; exact hlt
    constructor
    · rw [check_clip_trigger_fst]
      unfold clip_fire_decision
      rw [if_pos hgate]
    · rw [check_clip_trigger_state]
      unfold clip_fire_decision
      rw [if_pos hgate]

/-- Witness for `c3_rearm_and_single_fire`: 15 trigger messages inside the
10-second window fire at `t = 100`, the state is re-armed to 100, and a 16th
qualifying message at `t = 101` does not fire. -/
theorem c3_rearm_and_single_fire_witness :
    (check_clip_trigger (chars "CLIP THAT") 100
        ⟨0, [95, 95, 96, 96, 97, 97, 98, 98, 99, 99, 99, 100, 100, 100, 100]⟩ none).2.1.last_clip_time
      = 100 ∧
    (check_clip_trigger (chars "POG") 101
        ((check_clip_trigger (chars "CLIP THAT") 100
            ⟨0, [95, 95, 96, 96, 97, 97, 98, 98, 99, 99, 99, 100, 100, 100, 100]⟩ none).2.1)
        none).1 = false := by
  have h := c3_rearm_and_single_fire (chars "CLIP THAT") 100
      ⟨0, [95, 95, 96, 96, 97, 97, 98, 98, 99, 99, 99, 100, 100, 100, 100]⟩ none none
  have hfire : (check_clip_trigger (chars "CLIP THAT") 100
      ⟨0, [95, 95, 96, 96, 97, 97, 98, 98, 99, 99, 99, 100, 100, 100, 100]⟩ none).1 = true :=
    (clip_fire_characterization _ _ _ _).mpr ⟨by norm_num, by decide, by norm_num [List.filter]⟩
  exact ⟨h.2.2.1 hfire, (h.2.2.2 (chars "POG") 101 none hfire (by norm_num)).1⟩

-- ──────────────────────────────────────────────
-- COOLDOWN GATES  (server.py lines 153-205 soundboard, 255-343 chaos)
-- ──────────────────────────────────────────────

/-- A cooldown dictionary: last-fired time per key, an entry existing only
after the first successful fire (`soundboard_cooldowns` line 155,
`chaos_cooldown` line 256). -/
def CooldownMap := List (List Char × ℚ)

instance : DecidableEq CooldownMap := by
  unfold CooldownMap
  infer_instance

/-- Python `d.get(k, default)` on a string-keyed dict. -/
def dictGetD (m : CooldownMap) (k : List Char) (d : ℚ) : ℚ :=
  match m.find? (fun e => e.1 = k) with
  | some e => e.2
  | none => d

/-- Python `d[k] = v` on a string-keyed dict. -/
def dictSet : CooldownMap → List Char → ℚ → CooldownMap
  | [], k, v => [(k, v)]
  | e :: rest, k, v => if e.1 = k then (k, v) :: rest else e :: dictSet rest k v

theorem dictGetD_dictSet_same (m : CooldownMap) (k : List Char) (v d : ℚ) :
    dictGetD (dictSet m k v) k d = v := by
  induction m with
  | nil => simp [dictSet, dictGetD, List.find?]
  | cons e rest ih =>
      by_cases h : e.1 = k
      · simp [dictSet, h, dictGetD, List.find?]
      · simp only [dictSet, if_neg h]
        unfold dictGetD
        rw [List.find?_cons_of_neg _ (by simpa using h)]
        exact ih

theorem dictGetD_dictSet_other (m : CooldownMap) (k k' : List Char) (v d : ℚ)
    (hne : k' ≠ k) : dictGetD (dictSet m k v) k' d = dictGetD m k' d := by
  induction m with
  | nil =>
      simp only [dictSet, dictGetD]
      rw [List.find?_cons_of_neg _ (by simpa using Ne.symm hne)]
  | cons e rest ih =>
      by_cases h : e.1 = k
      · simp only [dictSet, if_pos h, dictGetD]
        rw [List.find?_cons_of_neg _ (by simpa using Ne.symm hne),
            List.find?_cons_of_neg _ (by simp only [h]; simpa using Ne.symm hne)]
      · simp only [dictSet, if_neg h]
        unfold dictGetD at ih ⊢
        by_cases h' : e.1 = k'
        · rw [List.find?_cons_of_pos _ (by simpa using h'),
              List.find?_cons_of_pos _ (by simpa using h')]
        · rw [List.find?_cons_of_neg _ (by simpa using h'),
              List.find?_cons_of_neg _ (by simpa using h')]
          exact ih

/-- A soundboard entry (built by `init_soundboard`, server.py lines 159-177;
the catalog itself is scanned from disk at startup, so it is a parameter of
the model). -/
structure Sound where
  name : List Char
  slug : List Char
  file : List Char
  icon : List Char
  volume : ℚ
  chatCommand : List Char
deriving DecidableEq, Repr

/-- Catalog of soundboard sounds keyed by slug (`soundboard_sounds`). -/
def Soundboard := List (List Char × Sound)

/-- Python `soundboard_sounds.get(slug)`. -/
def sbGet (sb : Soundboard) (slug : List Char) : Option Sound :=
  match sb.find? (fun e => e.1 = slug) with
  | some e => some e.2
  | none => none

/-- `SOUNDBOARD_COOLDOWN_SEC` (server.py line 156). -/
def SOUNDBOARD_COOLDOWN_SEC : ℚ := 5

/-- Payload of the `soundboard_play` broadcast (server.py lines 192-201). -/
structure SoundPayload where
  name : List Char
  slug : List Char
  file : List Char
  icon : List Char
  volume : ℚ
  triggeredBy : List Char
  showOverlay : Bool
  displayDuration : ℤ
deriving DecidableEq, Repr

/-- `play_sound(slug, triggered_by)` (server.py lines 180-205): under
`soundboard_lock`, look the slug up, reject unknown slugs and requests inside
the per-slug 5-second cooldown (no state change), otherwise record `now` and
emit the payload.  Returns (payload or `None`, cooldown dict). -/
def play_sound (sb : Soundboard) (cooldowns : CooldownMap) (slug : List Char)
    (now : ℚ) (triggered_by : List Char) : Option SoundPayload × CooldownMap :=
  match sbGet sb slug with
  | none => (none, cooldowns)
  | some sound =>
      if now - dictGetD cooldowns slug 0 < SOUNDBOARD_COOLDOWN_SEC then (none, cooldowns)
      else
        (some { name := sound.name, slug := sound.slug, file := sound.file,
                icon := sound.icon, volume := sound.volume,
                triggeredBy := triggered_by, showOverlay := true,
                displayDuration := 3000 },
         dictSet cooldowns slug now)

/-- A chaos preset (server.py lines 259-316). -/
structure ChaosPreset where
  name : List Char
  icon : List Char
  duration : ℤ
  effect : List Char
  description : List Char
deriving DecidableEq, Repr

/-- `CHAOS_PRESETS` (server.py lines 259-316). -/
def CHAOS_PRESETS : List (List Char × ChaosPreset) :=
  [(chars "disco", ⟨chars "Disco Mode", chars "🪩", 8000, chars "disco",
      chars "Flashing rainbow lights!"⟩),
   (chars "earthquake", ⟨chars "Earthquake", chars "🌋", 5000, chars "shake",
      chars "Screen shake chaos!"⟩),
   (chars "confetti", ⟨chars "Confetti", chars "🎉", 6000, chars "confetti",
      chars "Party confetti explosion!"⟩),
   (chars "matrix", ⟨chars "Matrix Rain", chars "💊", 8000, chars "matrix",
      chars "Digital rain effect!"⟩),
   (chars "rave", ⟨chars "Rave Mode", chars "🔊", 10000, chars "rave",
      chars "Strobing neon lights + bass!"⟩),
   (chars "glitch", ⟨chars "Glitch", chars "📺", 4000, chars "glitch",
      chars "VHS glitch distortion!"⟩),
   (chars "hearts", ⟨chars "Heart Rain", chars "❤️", 6000, chars "hearts",
      chars "Falling hearts everywhere!"⟩),
   (chars "jumpscare", ⟨chars "Jumpscare", chars "👻", 2000, chars "jumpscare",
      chars "A spooky surprise!"⟩)]

/-- Python `CHAOS_PRESETS.get(preset_slug)`. -/
def chaosGet (slug : List Char) : Option ChaosPreset :=
  match CHAOS_PRESETS.find? (fun e => e.1 = slug) with
  | some e => some e.2
  | none => none

/-- `CHAOS_COOLDOWN_SEC` (server.py line 257). -/
def CHAOS_COOLDOWN_SEC : ℚ := 15

/-- Payload of the `chaos_trigger` broadcast (server.py lines 331-339). -/
structure ChaosPayload where
  slug : List Char
  name : List Char
  icon : List Char
  effect : List Char
  duration : ℤ
  description : List Char
  triggeredBy : List Char
deriving DecidableEq, Repr

/-- `trigger_chaos(preset_slug, triggered_by)` (server.py lines 319-343):
under `chaos_lock`, look the preset up, consult the single shared
`"_global"` cooldown key, reject inside the 15-second window (no state
change), otherwise record `now` under `"_global"` and emit the payload. -/
def trigger_chaos (cooldowns : CooldownMap) (preset_slug : List Char)
    (now : ℚ) (triggered_by : List Char) : Option ChaosPayload × CooldownMap :=
  match chaosGet preset_slug with
  | none => (none, cooldowns)
  | some preset =>
      if now - dictGetD cooldowns (chars "_global") 0 < CHAOS_COOLDOWN_SEC then (none, cooldowns)
      else
        (some { slug := preset_slug, name := preset.name, icon := preset.icon,
                effect := preset.effect, duration := preset.duration,
                description := preset.description, triggeredBy := triggered_by },
         dictSet cooldowns (chars "_global") now)

/-- Admission characterization for `play_sound` (shared helper). -/
theorem play_sound_admitted_iff (sb : Soundboard) (cd : CooldownMap)
    (slug : List Char) (now : ℚ) (tb : List Char) :
    (play_sound sb cd slug now tb).1.isSome = true ↔
      ((sbGet sb slug).isSome = true ∧ 5 ≤ now - dictGetD cd slug 0) := by
  unfold play_sound SOUNDBOARD_COOLDOWN_SEC
  cases h : sbGet sb slug with
  | none => simp [h]
  | some snd =>
      simp only [h]
      split_ifs with hc
      · simp [not_le.mpr hc]
      · simp [not_lt.mp hc]

/-- An admitted `play_sound` call records `now` for its slug (helper). -/
theorem play_sound_cd_of_admitted (sb : Soundboard) (cd : CooldownMap)
    (slug : List Char) (now : ℚ) (tb : List Char)
    (h : (play_sound sb cd slug now tb).1.isSome = true) :
    (play_sound sb cd slug now tb).2 = dictSet cd slug now := by
  unfold play_sound at h ⊢
  revert h
  cases hs : sbGet sb slug with
  | none => intro h; simp at h
  | some snd =>
      intro h
      dsimp only at h ⊢
      split_ifs at h ⊢ with hc
      · simp at h
      · rfl

/-- A rejected `play_sound` call leaves the cooldown dict unchanged (helper). -/
theorem play_sound_cd_of_rejected (sb : Soundboard) (cd : CooldownMap)
    (slug : List Char) (now : ℚ) (tb : List Char)
    (h : (play_sound sb cd slug now tb).1 = none) :
    (play_sound sb cd slug now tb).2 = cd := by
  unfold play_sound at h ⊢
  revert h
  cases hs : sbGet sb slug with
  | none => intro h; rfl
  | some snd =>
      intro h
      dsimp only at h ⊢
      split_ifs at h ⊢ with hc
      rfl

/-- Admission characterization for `trigger_chaos` (shared helper). -/
theorem trigger_chaos_admitted_iff (cd : CooldownMap) (slug : List Char)
    (now : ℚ) (tb : List Char) :
    (trigger_chaos cd slug now tb).1.isSome = true ↔
      ((chaosGet slug).isSome = true ∧ 15 ≤ now - dictGetD cd (chars "_global") 0) := by
  unfold trigger_chaos CHAOS_COOLDOWN_SEC
  cases h : chaosGet slug with
  | none => simp [h]
  | some p =>
      simp only [h]
      split_ifs with hc
      · simp [not_le.mpr hc]
      · simp [not_lt.mp hc]

/-- An admitted `trigger_chaos` call records `now` under the single shared
`"_global"` key, whichever preset fired (helper). -/
theorem trigger_chaos_cd_of_admitted (cd : CooldownMap) (slug : List Char)
    (now : ℚ) (tb : List Char)
    (h : (trigger_chaos cd slug now tb).1.isSome = true) :
    (trigger_chaos cd slug now tb).2 = dictSet cd (chars "_global") now := by
  unfold trigger_chaos at h ⊢
  revert h
  cases hs : chaosGet slug with
  | none => intro h; simp at h
  | some p =>
      intro h
      dsimp only at h ⊢
      split_ifs at h ⊢ with hc
      · simp at h
      · rfl

/-- A rejected `trigger_chaos` call leaves the cooldown dict unchanged
(helper). -/
theorem trigger_chaos_cd_of_rejected (cd : CooldownMap) (slug : List Char)
    (now : ℚ) (tb : List Char)
    (h : (trigger_chaos cd slug now tb).1 = none) :
    (trigger_chaos cd slug now tb).2 = cd := by
  unfold trigger_chaos at h ⊢
  revert h
  cases hs : chaosGet slug with
  | none => intro h; rfl
  | some p =>
      intro h
      dsimp only at h ⊢
      split_ifs at h ⊢ with hc
      rfl

/-- A sample one-entry soundboard catalog for concrete evaluations (the real
catalog is scanned from `static/sounds/soundboard/` at startup, so the model
keeps it as a parameter; `init_soundboard` gives every entry icon `🔊` and
volume `0.7`). -/
def boomSound : Sound :=
  { name := chars "Boom", slug := chars "boom",
    file := chars "/static/sounds/soundboard/boom.mp3", icon := chars "🔊",
    volume := 7/10, chatCommand := chars "boom" }

def sampleSoundboard : Soundboard := [(chars "boom", boomSound)]

/-- **C4 counterexample.** The claim says a key with no prior record is
always admitted, but the code treats a missing record as last-fire time `0`
(`*.get(slug, 0)` / `*.get("_global", 0)`), so at `now = 3` a first-ever
request for an existing preset/sound is rejected by both gates. -/
theorem c4_counterexample :
    (trigger_chaos [] (chars "disco") 3 (chars "Dashboard")).1 = none ∧
    (play_sound sampleSoundboard [] (chars "boom") 3 (chars "Dashboard")).1 = none := by
  constructor
  · refine Option.not_isSome_iff_eq_none.mp ?_
    intro hadm
    have h2 := ((trigger_chaos_admitted_iff [] (chars "disco") 3 (chars "Dashboard")).mp
      (by simpa using hadm)).2
    rw [show dictGetD [] (chars "_global") 0 = 0 from rfl] at h2
    norm_num at h2
  · refine Option.not_isSome_iff_eq_none.mp ?_
    intro hadm
    have h2 := ((play_sound_admitted_iff sampleSoundboard [] (chars "boom") 3
      (chars "Dashboard")).mp (by simpa using hadm)).2
    rw [show dictGetD [] (chars "boom") 0 = 0 from rfl] at h2
    norm_num at h2

/-- **C4 (amended).** A trigger request at `now` is admitted and records
`now` as the key's last-fire time iff the key exists in the catalog and
`now − lastFire(key) ≥ windowSeconds` (5 s per soundboard slug, 15 s for the
single shared chaos key), where a key with **no prior record is treated as
having last-fire time `0`** (hence admitted iff `now ≥ windowSeconds`, which
holds for every realistic wall-clock value); a rejected request changes no
cooldown state. -/
theorem c4_cooldown_gate (sb : Soundboard) (cd : CooldownMap) (slug : List Char)
    (now : ℚ) (tb : List Char) :
    ((play_sound sb cd slug now tb).1.isSome = true ↔
        ((sbGet sb slug).isSome = true ∧ 5 ≤ now - dictGetD cd slug 0)) ∧
    ((play_sound sb cd slug now tb).1.isSome = true →
        (play_sound sb cd slug now tb).2 = dictSet cd slug now) ∧
    ((play_sound sb cd slug now tb).1 = none →
        (play_sound sb cd slug now tb).2 = cd) ∧
    ((trigger_chaos cd slug now tb).1.isSome = true ↔
        ((chaosGet slug).isSome = true ∧ 15 ≤ now - dictGetD cd (chars "_global") 0)) ∧
    ((trigger_chaos cd slug now tb).1.isSome = true →
        (trigger_chaos cd slug now tb).2 = dictSet cd (chars "_global") now) ∧
    ((trigger_chaos cd slug now tb).1 = none →
        (trigger_chaos cd slug now tb).2 = cd) :=
  ⟨play_sound_admitted_iff sb cd slug now tb,
   play_sound_cd_of_admitted sb cd slug now tb,
   play_sound_cd_of_rejected sb cd slug now tb,
   trigger_chaos_admitted_iff cd slug now tb,
   trigger_chaos_cd_of_admitted cd slug now tb,
   trigger_chaos_cd_of_rejected cd slug now tb⟩

/-- Witness for `c4_cooldown_gate`: both gates admit at `now = 100` from an
empty cooldown dict and record the fire time. -/
theorem c4_cooldown_gate_witness :
    (play_sound sampleSoundboard [] (chars "boom") 100 (chars "Dashboard")).2 =
        dictSet [] (chars "boom") 100 ∧
    (trigger_chaos [] (chars "disco") 100 (chars "Dashboard")).2 =
        dictSet [] (chars "_global") 100 := by
  have t := c4_cooldown_gate sampleSoundboard [] (chars "boom") 100 (chars "Dashboard")
  have t2 := c4_cooldown_gate sampleSoundboard [] (chars "disco") 100 (chars "Dashboard")
  refine ⟨t.2.1 ?_, t2.2.2.2.2.1 ?_⟩
  · exact t.1.mpr ⟨by decide,
      by rw [show dictGetD [] (chars "boom") 0 = 0 from rfl]; norm_num⟩
  · exact t2.2.2.2.1.mpr ⟨by decide,
      by rw [show dictGetD [] (chars "_global") 0 = 0 from rfl]; norm_num⟩

/-- **C5.** Two admission checks for the same key at the same time `now`
never both admit: after an admitted `play_sound` call, a second call for the
same slug at the same `now` is rejected; after an admitted `trigger_chaos`
call, a second call for any preset at the same `now` is rejected (all presets
share one key). -/
theorem c5_no_double_admit (sb : Soundboard) (cd : CooldownMap)
    (slug slug' : List Char) (now : ℚ) (tb tb' : List Char) :
    ((play_sound sb cd slug now tb).1.isSome &&
        (play_sound sb (play_sound sb cd slug now tb).2 slug now tb').1.isSome) = false ∧
    ((trigger_chaos cd slug now tb).1.isSome &&
        (trigger_chaos (trigger_chaos cd slug now tb).2 slug' now tb').1.isSome) = false := by
  constructor
  · cases h1 : (play_sound sb cd slug now tb).1.isSome with
    | false => rfl
    | true =>
        rw [play_sound_cd_of_admitted sb cd slug now tb h1]
        cases h2 : (play_sound sb (dictSet cd slug now) slug now tb').1.isSome with
        | false => rfl
        | true =>
            exfalso
            have hle := ((play_sound_admitted_iff sb (dictSet cd slug now) slug now
              tb').mp h2).2
            rw [dictGetD_dictSet_same, sub_self] at hle
            norm_num at hle
  · cases h1 : (trigger_chaos cd slug now tb).1.isSome with
    | false => rfl
    | true =>
        rw [trigger_chaos_cd_of_admitted cd slug now tb h1]
        cases h2 : (trigger_chaos (dictSet cd (chars "_global") now) slug' now
            tb').1.isSome with
        | false => rfl
        | true =>
            exfalso
            have hle := ((trigger_chaos_admitted_iff (dictSet cd (chars "_global") now)
              slug' now tb').mp h2).2
            rw [dictGetD_dictSet_same, sub_self] at hle
            norm_num at hle

/-- **C6.** All chaos presets share the single global `"_global"` cooldown
key: an admitted `trigger_chaos` for one preset rejects any preset for the
next 15 seconds.  Soundboard slugs have independent keys: a `play_sound`
call for one slug neither changes another slug's cooldown entry nor affects
the admission outcome of a later call for that other slug. -/
theorem c6_shared_chaos_key_per_slug_sounds (cd : CooldownMap)
    (s1 s2 : List Char) (now now' : ℚ) (tb tb' : List Char) (sb : Soundboard) :
    ((trigger_chaos cd s1 now tb).1.isSome = true → now' - now < 15 →
        (trigger_chaos (trigger_chaos cd s1 now tb).2 s2 now' tb').1 = none) ∧
    (s2 ≠ s1 →
        dictGetD (play_sound sb cd s1 now tb).2 s2 0 = dictGetD cd s2 0) ∧
    (s2 ≠ s1 →
        (play_sound sb (play_sound sb cd s1 now tb).2 s2 now' tb').1 =
          (play_sound sb cd s2 now' tb').1) := by
  have hgd : ∀ _ : s2 ≠ s1,
      dictGetD (play_sound sb cd s1 now tb).2 s2 0 = dictGetD cd s2 0 := by
    intro hne
    cases h1 : (play_sound sb cd s1 now tb).1.isSome with
    | true =>
        rw [play_sound_cd_of_admitted sb cd s1 now tb h1]
        exact dictGetD_dictSet_other cd s1 s2 now 0 hne
    | false =>
        rw [play_sound_cd_of_rejected sb cd s1 now tb
          (Option.not_isSome_iff_eq_none.mp (by simp [h1]))]
  refine ⟨?_, hgd, ?_⟩
  · intro h1 hlt
    rw [trigger_chaos_cd_of_admitted cd s1 now tb h1]
    refine Option.not_isSome_iff_eq_none.mp ?_
    intro hadm
    have hle := ((trigger_chaos_admitted_iff (dictSet cd (chars "_global") now) s2 now'
      tb').mp (by simpa using hadm)).2
    rw [dictGetD_dictSet_same] at hle
    exact absurd hle (not_le.mpr hlt)
  · intro hne
    have hd := hgd hne
    generalize hm : (play_sound sb cd s1 now tb).2 = m at hd ⊢
    unfold play_sound
    revert hd
    cases hs : sbGet sb s2 with
    | none => intro hd; rfl
    | some snd =>
        intro hd
        dsimp only
        rw [hd]
        split_ifs with hc
        · rfl
        · rfl

/-- Witness for `c6_shared_chaos_key_per_slug_sounds`: `disco` admitted at
100 blocks `earthquake` at 110 (shared key); an admitted `boom` play leaves
the cooldown entry of slug `other` untouched (independent keys). -/
theorem c6_shared_chaos_key_per_slug_sounds_witness :
    (trigger_chaos (trigger_chaos [] (chars "disco") 100 (chars "Dashboard")).2
        (chars "earthquake") 110 (chars "Dashboard")).1 = none ∧
    dictGetD (play_sound sampleSoundboard [] (chars "boom") 100 (chars "Dashboard")).2
        (chars "other") 0 = dictGetD [] (chars "other") 0 := by
  have t := c6_shared_chaos_key_per_slug_sounds [] (chars "disco") (chars "earthquake")
    100 110 (chars "Dashboard") (chars "Dashboard") sampleSoundboard
  have t2 := c6_shared_chaos_key_per_slug_sounds [] (chars "boom") (chars "other")
    100 110 (chars "Dashboard") (chars "Dashboard") sampleSoundboard
  refine ⟨t.1 ?_ (by norm_num), t2.2.1 (by decide)⟩
  exact (trigger_chaos_admitted_iff [] (chars "disco") 100 (chars "Dashboard")).mpr
    ⟨by decide, by rw [show dictGetD [] (chars "_global") 0 = 0 from rfl]; norm_num⟩

-- ──────────────────────────────────────────────
-- GOAL TRACKER  (server.py lines 211-249)
-- ──────────────────────────────────────────────

/-- A JSON-ish Python value as received in request payloads (floats are
idealised as rationals). -/
inductive PyVal where
  | none
  | bool (b : Bool)
  | int (n : ℤ)
  | float (q : ℚ)
  | str (s : List Char)
deriving DecidableEq, Repr

/-- Digit run to number; `Option.none` on a non-digit. -/
def digitsToNatAux : List Char → Nat → Option Nat
  | [], acc => some acc
  | c :: rest, acc =>
      if c.isDigit then digitsToNatAux rest (acc * 10 + (c.toNat - 48))
      else Option.none

/-- Python `int(s)` on a string: optional surrounding whitespace, optional
sign, a nonempty digit run (underscore separators and non-ASCII digits are
not modelled). -/
def parseIntStr (cs : List Char) : Option ℤ :=
  match pyStrip cs with
  | [] => Option.none
  | '+' :: rest =>
      match rest with
      | [] => Option.none
      | _ => (digitsToNatAux rest 0).map Int.ofNat
  | '-' :: rest =>
      match rest with
      | [] => Option.none
      | _ => (digitsToNatAux rest 0).map fun n => -(n : ℤ)
  | rest => (digitsToNatAux rest 0).map Int.ofNat

/-- Python `int(float)`: truncation toward zero. -/
def ratTrunc (q : ℚ) : ℤ := if 0 ≤ q then ⌊q⌋ else ⌈q⌉

/-- Python `int(value)`: succeeds on bools, ints, floats (truncating toward
zero) and integer-shaped strings; anything else raises (`Option.none`). -/
def pyInt : PyVal → Option ℤ
  | .bool b => some (if b then 1 else 0)
  | .int n => some n
  | .float q => some (ratTrunc q)
  | .str s => parseIntStr s
  | .none => Option.none

/-- Python `str(value)` (numeric reprs idealised via `toString`). -/
def pyStr : PyVal → List Char
  | .str s => s
  | .int n => chars (toString n)
  | .bool b => if b then chars "True" else chars "False"
  | .float q => chars (toString q)
  | .none => chars "None"

/-- Python `bool(value)` truthiness. -/
def pyBool : PyVal → Bool
  | .none => false
  | .bool b => b
  | .int n => decide (n ≠ 0)
  | .float q => decide (q ≠ 0)
  | .str s => decide (s ≠ [])

/-- One goal of the fixed catalog (server.py lines 212-217); goals are never
created or deleted at runtime, only mutated. -/
structure Goal where
  id : List Char
  type : List Char
  title : List Char
  current : ℤ
  target : ℤ
  enabled : Bool
deriving DecidableEq, Repr

/-- `stream_goals` at startup (server.py lines 212-217). -/
def stream_goals_init : List Goal :=
  [{ id := chars "followers", type := chars "followers", title := chars "Follower Goal",
     current := 0, target := 50, enabled := true },
   { id := chars "subs", type := chars "subs", title := chars "Sub Goal",
     current := 0, target := 10, enabled := true },
   { id := chars "donations", type := chars "donations", title := chars "Donation Goal",
     current := 0, target := 100, enabled := false },
   { id := chars "bits", type := chars "bits", title := chars "Bits Goal",
     current := 0, target := 5000, enabled := false }]

/-- `get_goals()` (server.py lines 220-222) copies the goal list under
`goals_lock`.  `lockHeld` records whether the calling thread already holds
`goals_lock`: `threading.Lock` is not reentrant, so a nested acquire blocks
forever, rendered as `Option.none`. -/
def get_goals (lockHeld : Bool) (goals : List Goal) : Option (List Goal) :=
  if lockHeld then Option.none else some goals

/-- The `data` dict passed to the goal mutators (only the four recognised
keys are consulted; unknown keys are ignored). -/
structure GoalData where
  current : Option PyVal
  target : Option PyVal
  title : Option PyVal
  enabled : Option PyVal
deriving DecidableEq, Repr

/-- Lines 229-236 of server.py: apply the recognised fields to goal `g` in
source order. `int(...)` may raise, aborting mid-update with the fields
mutated so far (`Except.error`). -/
def apply_goal_fields (g : Goal) (data : GoalData) : Except Goal Goal :=
  let step1 : Except Goal Goal :=
    match data.current with
    | Option.none => .ok g
    | some v =>
        match pyInt v with
        | some n => .ok { g with current := n }
        | Option.none => .error g
  match step1 with
  | .error g' => .error g'
  | .ok g1 =>
      let step2 : Except Goal Goal :=
        match data.target with
        | Option.none => .ok g1
        | some v =>
            match pyInt v with
            | some n => .ok { g1 with target := max 1 n }
            | Option.none => .error g1
      match step2 with
      | .error g' => .error g'
      | .ok g2 =>
          let g3 :=
            match data.title with
            | Option.none => g2
            | some v => { g2 with title := (pyStr v).take 60 }
          let g4 :=
            match data.enabled with
            | Option.none => g3
            | some v => { g3 with enabled := pyBool v }
          .ok g4

/-- Events emitted by the goal mutators. -/
inductive GoalsEvent where
  | goalsUpdate (goals : List Goal)
deriving DecidableEq, Repr

/-- Result of a goals operation. `deadlock` marks the thread re-acquiring
the non-reentrant `goals_lock` it already holds (blocking forever), with the
goal-list state at that moment; `exc` marks an uncaught `int(...)` error
(the `with` block releases the lock on unwind). -/
inductive GoalsOutcome where
  | ok (goals : List Goal) (events : List GoalsEvent) (ret : Option Goal)
  | deadlock (goals : List Goal)
  | exc (goals : List Goal)
deriving DecidableEq, Repr

/-- The `for g in stream_goals` loop of `update_goal` (lines 227-236): mutate
the first goal with matching id in place.  Returns the updated list plus
whether `int(...)` raised, or `Option.none` when no goal matched. -/
def upd_scan (goal_id : List Char) (data : GoalData) :
    List Goal → Option (List Goal × Bool)
  | [] => Option.none
  | g :: rest =>
      if g.id = goal_id then
        match apply_goal_fields g data with
        | .ok g' => some (g' :: rest, false)
        | .error g' => some (g' :: rest, true)
      else (upd_scan goal_id data rest).map fun r => (g :: r.1, r.2)

/-- `update_goal(goal_id, data)` (server.py lines 225-240).  Inside
`with goals_lock`, the first matching goal is mutated; line 237 then calls
`get_goals()`, which tries to acquire `goals_lock` again — `threading.Lock`
is not reentrant, so this blocks forever and the emit on line 238 and the
`return g` on line 239 are unreachable.  With no match the function returns
`None` with no state change and no emit. -/
def update_goal (goals : List Goal) (goal_id : List Char) (data : GoalData) :
    GoalsOutcome :=
  match upd_scan goal_id data goals with
  | Option.none => .ok goals [] Option.none
  | some (goals', true) => .exc goals'
  | some (goals', false) =>
      match get_goals true goals' with
      | Option.none => .deadlock goals'
      | some snapshot =>
          .ok goals' [GoalsEvent.goalsUpdate snapshot]
            (goals'.find? fun g => g.id = goal_id)

/-- The `for g in stream_goals` loop of `increment_goal` (lines 245-247). -/
def inc_scan (goal_id : List Char) (amount : ℤ) : List Goal → Option (List Goal)
  | [] => Option.none
  | g :: rest =>
      if g.id = goal_id then some ({ g with current := g.current + amount } :: rest)
      else (inc_scan goal_id amount rest).map fun r => g :: r

/-- `increment_goal(goal_id, amount)` (server.py lines 243-249).  On a match
the loop body runs `snapshot = get_goals()` (line 248) while `goals_lock` is
still held — deadlock.  With no match the loop body never runs, the lock is
released, and line 249 — outside the `with` block and outside the loop —
unconditionally emits a `goals_update` broadcast built from `get_goals()`. -/
def increment_goal (goals : List Goal) (goal_id : List Char) (amount : ℤ) :
    GoalsOutcome :=
  match inc_scan goal_id amount goals with
  | some goals' =>
      match get_goals true goals' with
      | Option.none => .deadlock goals'
      | some _ => .ok goals' [] Option.none
  | Option.none =>
      match get_goals false goals with
      | some snapshot => .ok goals [GoalsEvent.goalsUpdate snapshot] Option.none
      | Option.none => .deadlock goals

/-- **C1 (code bug).** `increment_goal("unknown-id", 5)` leaves every goal
unchanged, but — contrary to the claim and to the spec — still performs a
`goals_update` broadcast: the `socketio.emit` on line 249 sits outside the
`with` block and outside the id-match loop, so it runs unconditionally (the
`snapshot` computed inside the loop is never used, and the known-id path
deadlocks on line 248, which shows the emit placement is a slip). -/
theorem c1_increment_goal_unknown_id_broadcasts :
    increment_goal stream_goals_init (chars "unknown-id") 5 =
      .ok stream_goals_init [GoalsEvent.goalsUpdate stream_goals_init] Option.none := by
  rfl

/-- **C9 (code bug).** With an unknown id, `update_goal` returns the
not-found result with no state change and no publish, as claimed.  With the
known id `"subs"` and `{target: 0}`, the goal is mutated in place with the
floor applied (`target = max(1, 0) = 1`), but the call then deadlocks
re-acquiring the non-reentrant `goals_lock` inside `get_goals()` on line
237: it never republishes the goal list and never returns. -/
theorem c9_update_goal_floor_then_deadlock :
    update_goal stream_goals_init (chars "nope")
        ⟨Option.none, Option.none, Option.none, Option.none⟩ =
      .ok stream_goals_init [] Option.none ∧
    update_goal stream_goals_init (chars "subs")
        ⟨Option.none, some (PyVal.int 0), Option.none, Option.none⟩ =
      .deadlock
        [{ id := chars "followers", type := chars "followers",
           title := chars "Follower Goal", current := 0, target := 50, enabled := true },
         { id := chars "subs", type := chars "subs", title := chars "Sub Goal",
           current := 0, target := 1, enabled := true },
         { id := chars "donations", type := chars "donations",
           title := chars "Donation Goal", current := 0, target := 100, enabled := false },
         { id := chars "bits", type := chars "bits", title := chars "Bits Goal",
           current := 0, target := 5000, enabled := false }] := by
  constructor
  · rfl
  · rfl

-- ──────────────────────────────────────────────
-- OBS MIXER FACADE  (server.py lines 653-747, 1366-1374)
-- ──────────────────────────────────────────────

/-- The module-level OBS connection state (server.py lines 653-655):
`obs_client` is rendered as the boolean `obs_client is not None` (a live
session object exists); `obs_mode` and `obs_last_error` are the advisory
status fields. -/
structure ObsState where
  obs_client : Bool
  obs_mode : List Char
  obs_last_error : Option (List Char)
deriving DecidableEq, Repr

/-- The f-string of server.py line 698. -/
def feb11_fail_msg (code : ℤ) : List Char :=
  chars "FEBRUARY11 scene switch failed (" ++ chars (toString code) ++ chars ")"

/-- The f-string of server.py line 701. -/
def feb11_unavailable_msg (e : List Char) : List Char :=
  chars "FEBRUARY11 scene switch unavailable: " ++ e

/-- `fallback_switch_scene(scene_name)` (server.py lines 683-702).
`proxyEnabled` is `config.OBS_PROXY_VIA_FEBRUARY11`; `http` is the outcome
of the POST to the FEBRUARY11 API (`Except.error` = exception text,
`Except.ok` = HTTP status code). -/
def fallback_switch_scene (proxyEnabled : Bool) (http : Except (List Char) ℤ)
    (st : ObsState) : Bool × ObsState :=
  if !proxyEnabled then (false, st)
  else
    match http with
    | .ok code =>
        if 200 ≤ code ∧ code < 300 then
          (true, { st with obs_mode := chars "february11-fallback",
                           obs_last_error := Option.none })
        else
          (false, { st with obs_last_error := some (feb11_fail_msg code) })
    | .error e =>
        (false, { st with obs_last_error := some (feb11_unavailable_msg e) })

/-- `obs_switch_scene(scene_name)` (server.py lines 729-747): with no client
session, go straight to the fallback; with a session, try the primary call
(`primary` oracle) — on success set mode `direct` and clear the error, on
any exception fall back for this single invocation. -/
def obs_switch_scene (proxyEnabled : Bool) (primary : Except (List Char) Unit)
    (http : Except (List Char) ℤ) (st : ObsState) : Bool × ObsState :=
  if !st.obs_client then fallback_switch_scene proxyEnabled http st
  else
    match primary with
    | .ok _ => (true, { st with obs_mode := chars "direct", obs_last_error := Option.none })
    | .error _ => fallback_switch_scene proxyEnabled http st

/-- The `/api/obs-status` exposure (server.py lines 1366-1374; the constant
base-URL field is omitted). -/
structure ObsStatus where
  connected_direct : Bool
  obs_mode : List Char
  obs_last_error : Option (List Char)
  fallback_enabled : Bool
deriving DecidableEq, Repr

def api_obs_status (proxyEnabled : Bool) (st : ObsState) : ObsStatus :=
  { connected_direct := st.obs_client, obs_mode := st.obs_mode,
    obs_last_error := st.obs_last_error, fallback_enabled := proxyEnabled }

/-- A 2xx fallback POST succeeds and stamps `"february11-fallback"`
(helper). -/
theorem fallback_switch_scene_ok (st : ObsState) (code : ℤ)
    (h1 : 200 ≤ code) (h2 : code < 300) :
    fallback_switch_scene true (.ok code) st =
      (true, { st with obs_mode := chars "february11-fallback",
                       obs_last_error := Option.none }) := by
  unfold fallback_switch_scene
  rw [if_neg (by decide)]
  dsimp only
  rw [if_pos ⟨h1, h2⟩]

/-- A disabled proxy makes the fallback a no-op failure (helper). -/
theorem fallback_switch_scene_disabled (http : Except (List Char) ℤ)
    (st : ObsState) : fallback_switch_scene false http st = (false, st) := by
  unfold fallback_switch_scene
  rw [if_pos (by decide)]

/-- With no client session, `obs_switch_scene` is exactly the fallback call
(helper). -/
theorem obs_switch_scene_no_client (proxyEnabled : Bool)
    (primary : Except (List Char) Unit) (http : Except (List Char) ℤ)
    (st : ObsState) (hcl : st.obs_client = false) :
    obs_switch_scene proxyEnabled primary http st =
      fallback_switch_scene proxyEnabled http st := by
  unfold obs_switch_scene
  rw [hcl, if_pos (by decide)]

/-- With a client session whose call raises, `obs_switch_scene` is exactly
the fallback call (helper). -/
theorem obs_switch_scene_primary_fail (proxyEnabled : Bool) (e : List Char)
    (http : Except (List Char) ℤ) (st : ObsState) (hcl : st.obs_client = true) :
    obs_switch_scene proxyEnabled (.error e) http st =
      fallback_switch_scene proxyEnabled http st := by
  unfold obs_switch_scene
  rw [hcl, if_neg (by decide)]

/-- **C7 counterexample.** With no client session, the fallback configured
and the HTTP call answering 200, the switch succeeds — but the exposed
status mode is `"february11-fallback"`, not `"fallback"` as the claim (and
the spec's `direct|fallback|disabled|disconnected` enumeration) states. -/
theorem c7_counterexample :
    (obs_switch_scene true (.ok ()) (.ok 200)
        ⟨false, chars "disconnected", Option.none⟩).1 = true ∧
    (api_obs_status true (obs_switch_scene true (.ok ()) (.ok 200)
        ⟨false, chars "disconnected", Option.none⟩).2).obs_mode =
      chars "february11-fallback" ∧
    (api_obs_status true (obs_switch_scene true (.ok ()) (.ok 200)
        ⟨false, chars "disconnected", Option.none⟩).2).obs_mode ≠
      chars "fallback" := by
  refine ⟨rfl, rfl, by decide⟩

/-- **C7 (amended).** When no client session exists — or the session's
primary call raises — and the fallback is configured, `obs_switch_scene`
succeeds whenever the secondary HTTP channel answers 2xx, and the exposed
status mode becomes `"february11-fallback"` (the literal `"fallback"` is
only ever set by `connect_obs` at connection time); with the fallback
disabled and no client session, the call fails and the state — in
particular a `"disconnected"` mode — is left unchanged. -/
theorem c7_fallback_facade (st : ObsState) (primary : Except (List Char) Unit)
    (http : Except (List Char) ℤ) (code : ℤ) (e : List Char) :
    (st.obs_client = false → 200 ≤ code → code < 300 →
        (obs_switch_scene true primary (.ok code) st).1 = true ∧
        (api_obs_status true (obs_switch_scene true primary (.ok code) st).2).obs_mode =
          chars "february11-fallback") ∧
    (200 ≤ code → code < 300 →
        (obs_switch_scene true (.error e) (.ok code) st).1 = true ∧
        (api_obs_status true (obs_switch_scene true (.error e) (.ok code) st).2).obs_mode =
          chars "february11-fallback") ∧
    (st.obs_client = false →
        (obs_switch_scene false primary http st).1 = false ∧
        (obs_switch_scene false primary http st).2 = st) := by
  refine ⟨?_, ?_, ?_⟩
  · intro hcl h1 h2
    rw [obs_switch_scene_no_client true primary (.ok code) st hcl,
        fallback_switch_scene_ok st code h1 h2]
    exact ⟨rfl, rfl⟩
  · intro h1 h2
    cases hcl : st.obs_client with
    | false =>
        rw [obs_switch_scene_no_client true (.error e) (.ok code) st hcl,
            fallback_switch_scene_ok st code h1 h2]
        exact ⟨rfl, rfl⟩
    | true =>
        rw [obs_switch_scene_primary_fail true e (.ok code) st hcl,
            fallback_switch_scene_ok st code h1 h2]
        exact ⟨rfl, rfl⟩
  · intro hcl
    rw [obs_switch_scene_no_client false primary http st hcl,
        fallback_switch_scene_disabled http st]
    exact ⟨rfl, rfl⟩

/-- Witness for `c7_fallback_facade` at concrete inputs: no session, proxy
on, HTTP 204 → success with mode `"february11-fallback"`; proxy off from
`"disconnected"` → failure with the state unchanged. -/
theorem c7_fallback_facade_witness :
    (obs_switch_scene true (.ok ()) (.ok 204)
        ⟨false, chars "disconnected", Option.none⟩).1 = true ∧
    (api_obs_status true (obs_switch_scene true (.ok ()) (.ok 204)
        ⟨false, chars "disconnected", Option.none⟩).2).obs_mode =
      chars "february11-fallback" ∧
    (obs_switch_scene false (.ok ()) (.ok 204)
        ⟨false, chars "disconnected", Option.none⟩).1 = false ∧
    (obs_switch_scene false (.ok ()) (.ok 204)
        ⟨false, chars "disconnected", Option.none⟩).2 =
      ⟨false, chars "disconnected", Option.none⟩ := by
  have t := c7_fallback_facade ⟨false, chars "disconnected", Option.none⟩
    (.ok ()) (.ok 204) 204 (chars "")
  have h1 := t.1 rfl (by norm_num) (by norm_num)
  have h3 := t.2.2 rfl
  exact ⟨h1.1, h1.2, h3.1, h3.2⟩

-- ──────────────────────────────────────────────
-- SUBTITLES  (server.py lines 118-133, 366-485; config.py 124-129)
-- ──────────────────────────────────────────────

/-- `subtitle_state` (server.py lines 121-125). -/
structure SubtitleState where
  text : List Char
  final : Bool
  updated_at : Option (List Char)
deriving DecidableEq, Repr

inductive SubtitleEvent where
  | subtitleUpdate (st : SubtitleState)
deriving DecidableEq, Repr

/-- Line 474 of server.py: `" ".join(text.split()).strip()`. -/
def normalize_subtitle (t : List Char) : List Char :=
  pyStrip (joinSpace (pySplitWs t))

/-- Lines 475-476 of server.py: `if len(normalized) > 220: normalized =
normalized[:220].rstrip()`. -/
def truncate_subtitle (n : List Char) : List Char :=
  if 220 < n.length then pyRstrip (n.take 220) else n

/-- `set_subtitle_text(text, final_value=True)` (server.py lines 471-485):
non-strings are first converted with `str(...)`; the text is
whitespace-normalized, trimmed, truncated at 220 with a trailing `rstrip`,
stored under the lock, and the snapshot is broadcast. -/
def set_subtitle_text (text : PyVal) (final_value : PyVal) (nowIso : List Char) :
    SubtitleState × List SubtitleEvent :=
  let t : List Char :=
    match text with
    | .str s => s
    | v => pyStr v
  let st : SubtitleState :=
    { text := truncate_subtitle (normalize_subtitle t)
      final := pyBool final_value
      updated_at := some nowIso }
  (st, [SubtitleEvent.subtitleUpdate st])

/-- A length-300 already-normalized input whose character at index 219 is a
space: 149 copies of `"a "` followed by `"aa"`. -/
def c8_input : List Char := (List.replicate 149 (chars "a ")).flatten ++ chars "aa"

set_option maxRecDepth 4000 in
/-- **C8 counterexample.** The normalized form of `c8_input` has length 300,
yet the stored subtitle is not its first 220 characters: the code applies
`rstrip()` after the 220-cut (line 476), and since character 219 is a space
the stored text has only 219 characters. -/
theorem c8_counterexample :
    c8_input.length = 300 ∧
    normalize_subtitle c8_input = c8_input ∧
    (set_subtitle_text (PyVal.str c8_input) (PyVal.bool true) []).1.text ≠
      c8_input.take 220 ∧
    (set_subtitle_text (PyVal.str c8_input) (PyVal.bool true) []).1.text.length = 219 := by
  refine ⟨by decide, by decide, by decide, by decide⟩

/-- Adjacent characters are never both spaces. -/
def SpaceRel (a b : Char) : Prop := ¬(a = ' ' ∧ b = ' ')

/-- What "normalized subtitle text" means: every whitespace character is a
plain space, no two adjacent spaces, and no leading or trailing whitespace. -/
def IsNormalizedText (l : List Char) : Prop :=
  (∀ c ∈ l, pyIsSpace c = true → c = ' ') ∧
  List.Chain' SpaceRel l ∧
  (∀ c ∈ l.head?, pyIsSpace c = false) ∧
  (∀ c ∈ l.getLast?, pyIsSpace c = false)

/-- A member of `getLast?` is a member of the list (helper). -/
theorem mem_of_getLast?_mem {l : List Char} {c : Char} (h : c ∈ l.getLast?) : c ∈ l := by
  rcases List.mem_getLast?_eq_getLast h with ⟨hne, hc⟩
  rw [hc]
  exact List.getLast_mem hne

/-- `all` transfers across `reverse` (helper). -/
theorem all_reverse_of_all {l : List Char} {p : Char → Bool} (h : l.all p = true) :
    (l.reverse.all p) = true := by
  refine List.all_eq_true.mpr ?_
  intro x hx
  exact List.all_eq_true.mp h x (List.mem_reverse.mp hx)

/-- Every word produced by `str.split()` is nonempty and whitespace-free. -/
theorem splitWsAux_words (l : List Char) :
    ∀ acc, (acc.all fun c => !pyIsSpace c) = true →
      ∀ w ∈ splitWsAux l acc, w ≠ [] ∧ (w.all fun c => !pyIsSpace c) = true := by
  induction l with
  | nil =>
      intro acc hacc w hw
      unfold splitWsAux at hw
      match acc, hw with
      | a :: as, hw =>
          rw [List.mem_singleton] at hw
          subst hw
          refine ⟨by simp, ?_⟩
          exact all_reverse_of_all hacc
  | cons c rest ih =>
      intro acc hacc w hw
      unfold splitWsAux at hw
      by_cases hsp : pyIsSpace c = true
      · rw [if_pos hsp] at hw
        match acc, hacc, hw with
        | [], _, hw => exact ih [] rfl w hw
        | a :: as, hacc, hw =>
            rcases List.mem_cons.mp hw with hw | hw
            · subst hw
              refine ⟨by simp, all_reverse_of_all hacc⟩
            · exact ih [] rfl w hw
      · rw [if_neg hsp] at hw
        refine ih (c :: acc) ?_ w hw
        simp only [List.all_cons, hacc, Bool.and_true]
        simp only [Bool.not_eq_true] at hsp
        simp [hsp]

/-- A whitespace-free list satisfies the adjacency relation. -/
theorem chain'_of_no_space (w : List Char) (h : ∀ c ∈ w, pyIsSpace c = false) :
    List.Chain' SpaceRel w := by
  induction w with
  | nil => exact List.chain'_nil
  | cons a t ih =>
      rw [List.chain'_cons']
      refine ⟨?_, ih fun c hc => h c (List.mem_cons_of_mem a hc)⟩
      intro y hy hcontra
      have hmem : y ∈ t := by
        cases t with
        | nil => simp at hy
        | cons b t' => simp only [List.head?_cons, Option.mem_def, Option.some.injEq] at hy; subst hy; exact List.mem_cons_self b t'
      have := h y (List.mem_cons_of_mem a hmem)
      rw [hcontra.2] at this
      simp [pyIsSpace] at this

/-- A whitespace-free character is not a space. -/
theorem no_space_ne_space (c : Char) (h : pyIsSpace c = false) : ¬(c = ' ') := by
  intro hc
  rw [hc] at h
  simp [pyIsSpace] at h

/-- `joinSpace` of a list of nonempty whitespace-free words is never empty
when the word list is nonempty. -/
theorem joinSpace_ne_nil (w : List Char) (ws : List (List Char)) (hw : w ≠ []) :
    joinSpace (w :: ws) ≠ [] := by
  cases ws with
  | nil => simpa [joinSpace] using hw
  | cons w' ws' =>
      unfold joinSpace
      cases w with
      | nil => exact absurd rfl hw
      | cons a t => simp

/-- `" ".join(words)` of nonempty whitespace-free words is normalized. -/
theorem joinSpace_normalized (ws : List (List Char))
    (h : ∀ w ∈ ws, w ≠ [] ∧ (w.all fun c => !pyIsSpace c) = true) :
    IsNormalizedText (joinSpace ws) := by
  induction ws with
  | nil => exact ⟨by simp [joinSpace], by simp [joinSpace], by simp [joinSpace], by simp [joinSpace]⟩
  | cons w ws ih =>
      have hw := h w (List.mem_cons_self w ws)
      have hwfree : ∀ c ∈ w, pyIsSpace c = false := by
        intro c hc
        have := (List.all_eq_true.mp hw.2) c hc
        simpa using this
      cases ws with
      | nil =>
          refine ⟨?_, ?_, ?_, ?_⟩
          · intro c hc hsp
            rw [show joinSpace [w] = w from rfl] at hc
            exact absurd hsp (by simp [hwfree c hc])
          · exact chain'_of_no_space w hwfree
          · intro c hc
            rw [show joinSpace [w] = w from rfl] at hc
            cases w with
            | nil => simp at hc
            | cons a t =>
                simp only [List.head?_cons, Option.mem_def, Option.some.injEq] at hc
                subst hc
                exact hwfree a (List.mem_cons_self a t)
          · intro c hc
            rw [show joinSpace [w] = w from rfl] at hc
            exact hwfree c (mem_of_getLast?_mem hc)
      | cons w' ws' =>
          have hj := ih fun u hu => h u (List.mem_cons_of_mem w hu)
          have hjoin : joinSpace (w :: w' :: ws') = w ++ ' ' :: joinSpace (w' :: ws') := rfl
          have hjnil : joinSpace (w' :: ws') ≠ [] :=
            joinSpace_ne_nil w' ws' (h w' (by simp)).1
          refine ⟨?_, ?_, ?_, ?_⟩
          · intro c hc hsp
            rw [hjoin] at hc
            rcases List.mem_append.mp hc with hc | hc
            · exact absurd hsp (by simp [hwfree c hc])
            · rcases List.mem_cons.mp hc with hc | hc
              · exact hc
              · exact hj.1 c hc hsp
          · rw [hjoin]
            rw [List.chain'_append]
            refine ⟨chain'_of_no_space w hwfree, ?_, ?_⟩
            · rw [List.chain'_cons']
              refine ⟨?_, hj.2.1⟩
              intro y hy hcontra
              have := hj.2.2.1 y hy
              rw [hcontra.2] at this
              simp [pyIsSpace] at this
            · intro x hx y hy
              simp only [List.head?_cons, Option.mem_def, Option.some.injEq] at hy
              subst hy
              intro hcontra
              exact no_space_ne_space x (hwfree x (mem_of_getLast?_mem hx)) hcontra.1
          · intro c hc
            rw [hjoin] at hc
            cases w with
            | nil => exact absurd rfl hw.1
            | cons a t =>
                simp only [List.cons_append, List.head?_cons, Option.mem_def,
                  Option.some.injEq] at hc
                subst hc
                exact hwfree a (List.mem_cons_self a t)
          · intro c hc
            rw [hjoin, show w ++ ' ' :: joinSpace (w' :: ws') =
              (w ++ [' ']) ++ joinSpace (w' :: ws') from by simp] at hc
            rw [List.getLast?_append_of_ne_nil (w ++ [' ']) hjnil] at hc
            exact hj.2.2.2 c hc

/-- `rstrip` is the identity on a list whose last element is not
whitespace. -/
theorem rstrip_no_op (l : List Char) (h : ∀ c ∈ l.getLast?, pyIsSpace c = false) :
    pyRstrip l = l := by
  unfold pyRstrip
  cases hrev : l.reverse with
  | nil =>
      have : l = [] := by simpa using congrArg List.reverse hrev
      simp [this]
  | cons c tail =>
      have hlast : c ∈ l.getLast? := by
        rw [← List.head?_reverse, hrev]
        simp
      rw [List.dropWhile_cons, if_neg (by simp [h c hlast])]
      rw [← hrev, List.reverse_reverse]

/-- `lstrip` is the identity on a list whose head is not whitespace. -/
theorem lstrip_no_op (l : List Char) (h : ∀ c ∈ l.head?, pyIsSpace c = false) :
    pyLstrip l = l := by
  unfold pyLstrip
  cases l with
  | nil => rfl
  | cons c tail =>
      rw [List.dropWhile_cons, if_neg (by simp [h c (by simp)])]

/-- `strip` is the identity on normalized text. -/
theorem strip_no_op (l : List Char) (h : IsNormalizedText l) : pyStrip l = l := by
  unfold pyStrip
  rw [rstrip_no_op l h.2.2.2, lstrip_no_op l h.2.2.1]

/-- `normalize_subtitle` output: it equals the bare `join ∘ split` and is
normalized. -/
theorem normalize_subtitle_spec (t : List Char) :
    IsNormalizedText (normalize_subtitle t) ∧
      normalize_subtitle t = joinSpace (pySplitWs t) := by
  have hwords := splitWsAux_words t [] rfl
  have hj : IsNormalizedText (joinSpace (pySplitWs t)) :=
    joinSpace_normalized (pySplitWs t) fun w hw => hwords w hw
  have hs : pyStrip (joinSpace (pySplitWs t)) = joinSpace (pySplitWs t) :=
    strip_no_op _ hj
  unfold normalize_subtitle
  rw [hs]
  exact ⟨hj, rfl⟩

/-- The head of a `dropWhile` result never satisfies the predicate. -/
theorem head?_dropWhile_false (p : Char → Bool) (l : List Char) :
    ∀ c ∈ (l.dropWhile p).head?, p c = false := by
  induction l with
  | nil => intro c hc; simp at hc
  | cons a t ih =>
      intro c hc
      rw [List.dropWhile_cons] at hc
      by_cases hp : p a = true
      · rw [if_pos hp] at hc
        exact ih c hc
      · rw [if_neg hp] at hc
        simp only [List.head?_cons, Option.mem_def, Option.some.injEq] at hc
        subst hc
        simpa using hp

/-- The last element of an `rstrip` result is never whitespace. -/
theorem rstrip_getLast (l : List Char) :
    ∀ c ∈ (pyRstrip l).getLast?, pyIsSpace c = false := by
  intro c hc
  unfold pyRstrip at hc
  rw [List.getLast?_reverse] at hc
  exact head?_dropWhile_false pyIsSpace l.reverse c hc

/-- `rstrip` returns an initial segment of its input. -/
theorem rstrip_eq_take (l : List Char) :
    pyRstrip l = l.take (pyRstrip l).length := by
  have hsplit : l = pyRstrip l ++ (l.reverse.takeWhile pyIsSpace).reverse := by
    unfold pyRstrip
    rw [← List.reverse_append, List.takeWhile_append_dropWhile, List.reverse_reverse]
  conv_lhs => rw [show pyRstrip l = ((pyRstrip l ++ (l.reverse.takeWhile pyIsSpace).reverse).take (pyRstrip l).length) from (List.take_left _ _).symm]
  rw [← hsplit]

/-- The three front-facing normalization properties survive `take`. -/
theorem normalized_props_take (l : List Char) (n : Nat)
    (h1 : ∀ c ∈ l, pyIsSpace c = true → c = ' ')
    (h2 : List.Chain' SpaceRel l)
    (h3 : ∀ c ∈ l.head?, pyIsSpace c = false) :
    (∀ c ∈ l.take n, pyIsSpace c = true → c = ' ') ∧
      List.Chain' SpaceRel (l.take n) ∧
      (∀ c ∈ (l.take n).head?, pyIsSpace c = false) := by
  refine ⟨fun c hc => h1 c (List.take_subset n l hc), ?_, ?_⟩
  · have hsplit : List.Chain' SpaceRel (l.take n ++ l.drop n) := by
      rw [List.take_append_drop]
      exact h2
    exact (List.chain'_append.mp hsplit).1
  · intro c hc
    cases n with
    | zero => simp at hc
    | succ m =>
        cases l with
        | nil => simp at hc
        | cons a t =>
            simp only [List.take_succ_cons, List.head?_cons, Option.mem_def,
              Option.some.injEq] at hc
            subst hc
            exact h3 a (by simp)

/-- `rstrip ∘ take` preserves full normalization. -/
theorem normalized_rstrip_take (l : List Char) (n : Nat)
    (h : IsNormalizedText l) : IsNormalizedText (pyRstrip (l.take n)) := by
  obtain ⟨p1, p2, p3⟩ := normalized_props_take l n h.1 h.2.1 h.2.2.1
  have hk := rstrip_eq_take (l.take n)
  obtain ⟨q1, q2, q3⟩ := normalized_props_take (l.take n) (pyRstrip (l.take n)).length p1 p2 p3
  refine ⟨?_, ?_, ?_, rstrip_getLast (l.take n)⟩
  · intro c hc
    rw [hk] at hc
    exact q1 c hc
  · rw [hk]
    exact q2
  · intro c hc
    rw [hk] at hc
    exact q3 c hc

/-- Uniform description of the truncation step on normalized input. -/
theorem truncate_eq_rstrip_take (n : List Char) (h : IsNormalizedText n) :
    truncate_subtitle n = pyRstrip (n.take 220) := by
  unfold truncate_subtitle
  by_cases hlen : 220 < n.length
  · rw [if_pos hlen]
  · rw [if_neg hlen]
    rw [List.take_of_length_le (by omega)]
    exact (rstrip_no_op n h.2.2.2).symm

/-- `rstrip` never lengthens a list. -/
theorem rstrip_length_le (l : List Char) : (pyRstrip l).length ≤ l.length := by
  conv_rhs => rw [show l = pyRstrip l ++ (l.reverse.takeWhile pyIsSpace).reverse from by
    unfold pyRstrip
    rw [← List.reverse_append, List.takeWhile_append_dropWhile, List.reverse_reverse]]
  rw [List.length_append]
  omega

/-- **C8 (amended).** `set_subtitle_text` normalizes internal whitespace to
single spaces and trims; it then truncates to 220 characters **and strips
any trailing whitespace from the cut** (so a normalized input of length 300
whose 220th character is a space is stored with 219 characters, not 220).
The stored text always equals `rstrip(normalized[:220])`, is at most 220
characters, is normalized, and the empty string is a valid stored value. -/
theorem c8_subtitle_text_stored (t : List Char) (final_value : PyVal)
    (nowIso : List Char) :
    (set_subtitle_text (PyVal.str t) final_value nowIso).1.text =
      pyRstrip ((normalize_subtitle t).take 220) ∧
    (set_subtitle_text (PyVal.str t) final_value nowIso).1.text.length ≤ 220 ∧
    IsNormalizedText (set_subtitle_text (PyVal.str t) final_value nowIso).1.text ∧
    (set_subtitle_text (PyVal.str []) final_value nowIso).1.text = [] := by
  have hn := (normalize_subtitle_spec t).1
  have htext : (set_subtitle_text (PyVal.str t) final_value nowIso).1.text =
      truncate_subtitle (normalize_subtitle t) := rfl
  refine ⟨?_, ?_, ?_, rfl⟩
  · rw [htext]
    exact truncate_eq_rstrip_take _ hn
  · rw [htext, truncate_eq_rstrip_take _ hn]
    have h1 := rstrip_length_le ((normalize_subtitle t).take 220)
    have h2 : ((normalize_subtitle t).take 220).length ≤ 220 := by
      rw [List.length_take]
      omega
    omega
  · rw [htext, truncate_eq_rstrip_take _ hn]
    exact normalized_rstrip_take _ 220 hn

/-- `clamp(value, low, high)` (server.py lines 362-363). -/
def clamp (value low high : ℚ) : ℚ := max low (min high value)

/-- A hexadecimal digit (`[0-9a-fA-F]`), via code points. -/
def isHexDigitCh (c : Char) : Bool :=
  (decide (48 ≤ c.toNat) && decide (c.toNat ≤ 57)) ||
  (decide (97 ≤ c.toNat) && decide (c.toNat ≤ 102)) ||
  (decide (65 ≤ c.toNat) && decide (c.toNat ≤ 70))

/-- `HEX_COLOR_RE.fullmatch` (server.py line 118): `#` then 3 or 6 hex
digits. -/
def matchesHexColor (l : List Char) : Bool :=
  match l with
  | c :: rest =>
      c = '#' && (rest.length == 3 || rest.length == 6) && rest.all isHexDigitCh
  | [] => false

/-- A lowercase hexadecimal digit (`[0-9a-f]`). -/
def isLowerHexDigitCh (c : Char) : Bool :=
  (decide (48 ≤ c.toNat) && decide (c.toNat ≤ 57)) ||
  (decide (97 ≤ c.toNat) && decide (c.toNat ≤ 102))

/-- The 3- or 6-digit lowercase hex color pattern of the claim. -/
def isLowerHexColor (l : List Char) : Bool :=
  match l with
  | c :: rest =>
      c = '#' && (rest.length == 3 || rest.length == 6) && rest.all isLowerHexDigitCh
  | [] => false

/-- ASCII lower-casing of one character (Python `str.lower`, ASCII part). -/
def pyCharLower (c : Char) : Char :=
  if 65 ≤ c.toNat ∧ c.toNat ≤ 90 then Char.ofNat (c.toNat + 32) else c

/-- Python `str.lower()` (ASCII part). -/
def pyLower (l : List Char) : List Char := l.map pyCharLower

/-- The successful branch of `sanitize_hex_color`: for a string whose strip
matches the pattern, the lower-cased candidate; otherwise nothing. -/
def hexCandidate : PyVal → Option (List Char)
  | .str s =>
      if matchesHexColor (pyStrip s) then some (pyLower (pyStrip s)) else Option.none
  | _ => Option.none

/-- `sanitize_hex_color(value, fallback)` (server.py lines 366-371). -/
def sanitize_hex_color (value : PyVal) (fallback : List Char) : List Char :=
  (hexCandidate value).getD fallback

/-- `sanitize_font_family(value, fallback)` (server.py lines 374-382);
Python `isalnum()` is Unicode-aware and modelled on its ASCII part. -/
def sanitize_font_family (value : PyVal) (fallback : List Char) : List Char :=
  match value with
  | .str s =>
      if pyStrip s = [] then fallback
      else
        let safe := (pyStrip s).filter fun ch =>
          ch.isAlphanum || ch ∈ [' ', ',', '-', Char.ofNat 39, Char.ofNat 34]
        let safe2 := joinSpace (pySplitWs safe)
        if safe2 = [] then fallback else safe2.take 96
  | _ => fallback

/-- `sanitize_font_size(value, fallback)` (server.py lines 385-390):
`int(clamp(int(value), 18, 140))`, falling back on a failed `int(...)`. -/
def sanitize_font_size (value : PyVal) (fallback : ℤ) : ℤ :=
  match pyInt value with
  | some n => max 18 (min 140 n)
  | Option.none => fallback

/-- Unsigned decimal float body: `digits`, `digits.digits`, `.digits` or
`digits.`. -/
def parseUnsignedFloat (cs : List Char) : Option ℚ :=
  match cs.dropWhile Char.isDigit with
  | [] =>
      match cs.takeWhile Char.isDigit with
      | [] => Option.none
      | intPart => (digitsToNatAux intPart 0).map fun n => (n : ℚ)
  | '.' :: frac =>
      if cs.takeWhile Char.isDigit = [] ∧ frac = [] then Option.none
      else if frac.all Char.isDigit then
        match digitsToNatAux (cs.takeWhile Char.isDigit) 0, digitsToNatAux frac 0 with
        | some ip, some fp => some ((ip : ℚ) + (fp : ℚ) / (10 : ℚ) ^ frac.length)
        | _, _ => Option.none
      else Option.none
  | _ => Option.none

/-- Python `float(s)` on a string: optional whitespace and sign, then a
simple decimal literal (exponents, `inf`/`nan` and underscores are not
modelled; an unmodelled form behaves as a parse failure). -/
def parseFloatStr (cs : List Char) : Option ℚ :=
  match pyStrip cs with
  | [] => Option.none
  | '+' :: rest => parseUnsignedFloat rest
  | '-' :: rest => (parseUnsignedFloat rest).map Neg.neg
  | rest => parseUnsignedFloat rest

/-- Python `float(value)`: bools, ints, floats and decimal strings;
anything else raises (`Option.none`). -/
def pyFloat : PyVal → Option ℚ
  | .float q => some q
  | .int n => some (n : ℚ)
  | .bool b => some (if b then 1 else 0)
  | .str s => parseFloatStr s
  | .none => Option.none

/-- Python `round()` rounds half to even (binary-float artifacts are
idealised away by the rational embedding). -/
def roundHalfEven (q : ℚ) : ℤ :=
  if q - ⌊q⌋ < 1/2 then ⌊q⌋
  else if 1/2 < q - ⌊q⌋ then ⌊q⌋ + 1
  else if ⌊q⌋ % 2 = 0 then ⌊q⌋ else ⌊q⌋ + 1

/-- `round(x, 2)` (server.py line 396). -/
def round2 (q : ℚ) : ℚ := (roundHalfEven (q * 100) : ℚ) / 100

/-- `sanitize_opacity(value, fallback)` (server.py lines 393-398):
`round(clamp(float(value), 0.0, 1.0), 2)`, falling back on a failed
`float(...)`. -/
def sanitize_opacity (value : PyVal) (fallback : ℚ) : ℚ :=
  match pyFloat value with
  | some q => round2 (clamp q 0 1)
  | Option.none => fallback

/-- `subtitle_settings` (server.py lines 126-133). -/
structure SubtitleSettings where
  font_family : List Char
  font_size_px : ℤ
  text_color : List Char
  background_color : List Char
  background_opacity : ℚ
  updated_at : Option (List Char)
deriving DecidableEq, Repr

/-- The JSON `data` dict sent to `update_subtitle_settings`; a key the
request does not carry is `Option.none` (unknown extra keys are never
consulted by the code). -/
structure SubtitleData where
  font_family : Option PyVal
  font_size_px : Option PyVal
  text_color : Option PyVal
  background_color : Option PyVal
  background_opacity : Option PyVal
deriving DecidableEq, Repr

inductive SettingsEvent where
  | subtitleSettings (s : SubtitleSettings)
deriving DecidableEq, Repr

/-- The new settings record built by `update_subtitle_settings(data)`
(server.py lines 443-466): each field is sanitized with the current value as
both the `data.get` default and the sanitize fallback. -/
def update_subtitle_settings_pure (data : SubtitleData) (nowIso : List Char)
    (cur : SubtitleSettings) : SubtitleSettings :=
  { font_family := sanitize_font_family
      (data.font_family.getD (PyVal.str cur.font_family)) cur.font_family
    font_size_px := sanitize_font_size
      (data.font_size_px.getD (PyVal.int cur.font_size_px)) cur.font_size_px
    text_color := sanitize_hex_color
      (data.text_color.getD (PyVal.str cur.text_color)) cur.text_color
    background_color := sanitize_hex_color
      (data.background_color.getD (PyVal.str cur.background_color)) cur.background_color
    background_opacity := sanitize_opacity
      (data.background_opacity.getD (PyVal.float cur.background_opacity))
      cur.background_opacity
    updated_at := some nowIso }

/-- `update_subtitle_settings(data)` (server.py lines 443-468): commit the
sanitized record under the lock and broadcast the snapshot. -/
def update_subtitle_settings (data : SubtitleData) (nowIso : List Char)
    (cur : SubtitleSettings) : SubtitleSettings × List SettingsEvent :=
  (update_subtitle_settings_pure data nowIso cur,
   [SettingsEvent.subtitleSettings (update_subtitle_settings_pure data nowIso cur)])

/-- `init_subtitle_defaults()` (server.py lines 401-420): sanitize the
config module values (environment-derived, hence arbitrary here) against
the hardcoded fallbacks. -/
def init_subtitle_defaults (cfgFF cfgFS cfgTC cfgBC cfgBO : PyVal)
    (nowIso : List Char) : SubtitleSettings :=
  { font_family := sanitize_font_family cfgFF (chars "Inter, Segoe UI, sans-serif")
    font_size_px := sanitize_font_size cfgFS 56
    text_color := sanitize_hex_color cfgTC (chars "#ffffff")
    background_color := sanitize_hex_color cfgBC (chars "#000000")
    background_opacity := sanitize_opacity cfgBO (45/100)
    updated_at := some nowIso }

/-- The C10 invariant on the stored settings. -/
def SettingsInv (s : SubtitleSettings) : Prop :=
  18 ≤ s.font_size_px ∧ s.font_size_px ≤ 140 ∧
  0 ≤ s.background_opacity ∧ s.background_opacity ≤ 1 ∧
  (s.background_opacity * 100).den = 1 ∧
  isLowerHexColor s.text_color = true ∧
  isLowerHexColor s.background_color = true

/-- Lower-casing maps hex digits to lowercase hex digits. -/
theorem pyCharLower_hex (c : Char) (h : isHexDigitCh c = true) :
    isLowerHexDigitCh (pyCharLower c) = true := by
  unfold isHexDigitCh at h
  unfold pyCharLower isLowerHexDigitCh
  simp only [Bool.or_eq_true, Bool.and_eq_true, decide_eq_true_eq] at h ⊢
  rcases h with (⟨h1, h2⟩ | ⟨h1, h2⟩) | ⟨h1, h2⟩
  · rw [if_neg (by omega)]
    exact Or.inl ⟨h1, h2⟩
  · rw [if_neg (by omega)]
    exact Or.inr ⟨h1, h2⟩
  · rw [if_pos (by omega)]
    refine Or.inr ?_
    obtain ⟨m, hm⟩ : ∃ m, c.toNat + 32 = m := ⟨_, rfl⟩
    rw [hm]
    have hm1 : 97 ≤ m := by omega
    have hm2 : m ≤ 102 := by omega
    clear hm h1 h2
    interval_cases m <;> exact ⟨by decide, by decide⟩

/-- Lower-casing a matching hex color yields a lowercase hex color. -/
theorem pyLower_hex (l : List Char) (h : matchesHexColor l = true) :
    isLowerHexColor (pyLower l) = true := by
  cases l with
  | nil => simp [matchesHexColor] at h
  | cons c rest =>
      unfold matchesHexColor at h
      unfold pyLower isLowerHexColor
      simp only [List.map_cons]
      simp only [Bool.and_eq_true, Bool.or_eq_true, beq_iff_eq, decide_eq_true_eq] at h
      obtain ⟨⟨hc, hlen⟩, hall⟩ := h
      subst hc
      rw [show pyCharLower '#' = '#' from by decide]
      simp only [Bool.and_eq_true, Bool.or_eq_true, beq_iff_eq, decide_eq_true_eq]
      refine ⟨⟨trivial, ?_⟩, ?_⟩
      · rw [List.length_map]
        exact hlen
      · rw [List.all_eq_true] at hall ⊢
        intro x hx
        rcases List.mem_map.mp hx with ⟨c, hc, rfl⟩
        exact pyCharLower_hex c (hall c hc)

/-- `sanitize_hex_color` preserves the lowercase-hex invariant. -/
theorem sanitize_hex_color_inv (v : PyVal) (fb : List Char)
    (h : isLowerHexColor fb = true) :
    isLowerHexColor (sanitize_hex_color v fb) = true := by
  unfold sanitize_hex_color hexCandidate
  cases v with
  | str s =>
      dsimp only
      by_cases hm : matchesHexColor (pyStrip s) = true
      · rw [if_pos hm]
        exact pyLower_hex _ hm
      · rw [if_neg hm]
        exact h
  | none => exact h
  | bool b => exact h
  | int n => exact h
  | float q => exact h

/-- `sanitize_font_size` lands in `[18, 140]` whenever the fallback does. -/
theorem sanitize_font_size_bounds (v : PyVal) (fb : ℤ) (h1 : 18 ≤ fb)
    (h2 : fb ≤ 140) :
    18 ≤ sanitize_font_size v fb ∧ sanitize_font_size v fb ≤ 140 := by
  unfold sanitize_font_size
  cases pyInt v with
  | none => exact ⟨h1, h2⟩
  | some n =>
      dsimp only
      constructor
      · exact le_max_left 18 _
      · refine max_le (by norm_num) ?_
        exact le_trans (min_le_left 140 n) (by norm_num)

/-- Bounds for the half-even rounding of a value in `[0, 100]`. -/
theorem roundHalfEven_bounds (x : ℚ) (h0 : 0 ≤ x) (h1 : x ≤ 100) :
    0 ≤ roundHalfEven x ∧ roundHalfEven x ≤ 100 := by
  have hf0 : (0 : ℤ) ≤ ⌊x⌋ := Int.floor_nonneg.mpr h0
  have hf1 : ⌊x⌋ ≤ 100 := by
    have h := Int.floor_le_floor h1
    simpa using h
  have hfloor : (⌊x⌋ : ℚ) ≤ x := Int.floor_le x
  have hplus : 1/2 ≤ x - ⌊x⌋ → ⌊x⌋ + 1 ≤ 100 := by
    intro hh
    have hq : (⌊x⌋ : ℚ) < 100 := by linarith
    have : ⌊x⌋ < (100 : ℤ) := by exact_mod_cast hq
    omega
  unfold roundHalfEven
  split_ifs with hlt hgt heven
  · exact ⟨hf0, hf1⟩
  · exact ⟨by omega, hplus (by linarith)⟩
  · exact ⟨hf0, hf1⟩
  · exact ⟨by omega, hplus (by linarith)⟩

/-- `round2` of a value in `[0, 1]` is in `[0, 1]` with two decimals. -/
theorem round2_inv (q : ℚ) (h0 : 0 ≤ q) (h1 : q ≤ 1) :
    0 ≤ round2 q ∧ round2 q ≤ 1 ∧ (round2 q * 100).den = 1 := by
  have hb := roundHalfEven_bounds (q * 100) (by positivity) (by linarith)
  unfold round2
  refine ⟨?_, ?_, ?_⟩
  · apply div_nonneg _ (by norm_num)
    exact_mod_cast hb.1
  · rw [div_le_one (by norm_num)]
    exact_mod_cast hb.2
  · rw [div_mul_cancel₀ _ (by norm_num)]
    exact Rat.den_intCast _

/-- `sanitize_opacity` preserves the opacity invariant. -/
theorem sanitize_opacity_inv (v : PyVal) (fb : ℚ)
    (h0 : 0 ≤ fb) (h1 : fb ≤ 1) (h2 : (fb * 100).den = 1) :
    0 ≤ sanitize_opacity v fb ∧ sanitize_opacity v fb ≤ 1 ∧
      (sanitize_opacity v fb * 100).den = 1 := by
  unfold sanitize_opacity
  cases pyFloat v with
  | none => exact ⟨h0, h1, h2⟩
  | some q =>
      dsimp only
      have hc0 : 0 ≤ clamp q 0 1 := le_max_left 0 _
      have hc1 : clamp q 0 1 ≤ 1 := max_le (by norm_num) (min_le_left 1 q)
      exact round2_inv _ hc0 hc1

/-- Any sanitized settings record satisfies the invariant when its
fallbacks do; instantiated for each mutation below. -/
theorem settings_inv_update (data : SubtitleData) (nowIso : List Char)
    (cur : SubtitleSettings) (h : SettingsInv cur) :
    SettingsInv (update_subtitle_settings data nowIso cur).1 := by
  obtain ⟨hs1, hs2, ho0, ho1, hoden, htc, hbc⟩ := h
  have hsize := sanitize_font_size_bounds
    (data.font_size_px.getD (PyVal.int cur.font_size_px)) cur.font_size_px hs1 hs2
  have hop := sanitize_opacity_inv
    (data.background_opacity.getD (PyVal.float cur.background_opacity))
    cur.background_opacity ho0 ho1 hoden
  exact ⟨hsize.1, hsize.2, hop.1, hop.2.1, hop.2.2,
    sanitize_hex_color_inv _ _ htc, sanitize_hex_color_inv _ _ hbc⟩

/-- The startup defaults satisfy the invariant for any config input. -/
theorem settings_inv_init (cfgFF cfgFS cfgTC cfgBC cfgBO : PyVal)
    (nowIso : List Char) :
    SettingsInv (init_subtitle_defaults cfgFF cfgFS cfgTC cfgBC cfgBO nowIso) := by
  have hsize := sanitize_font_size_bounds cfgFS 56 (by norm_num) (by norm_num)
  have hden : ((45 : ℚ)/100 * 100).den = 1 := by
    rw [show (45 : ℚ)/100 * 100 = ((45 : ℤ) : ℚ) by norm_num]
    exact Rat.den_intCast 45
  have hop := sanitize_opacity_inv cfgBO (45/100) (by norm_num) (by norm_num) hden
  exact ⟨hsize.1, hsize.2, hop.1, hop.2.1, hop.2.2,
    sanitize_hex_color_inv cfgTC _ (by decide), sanitize_hex_color_inv cfgBC _ (by decide)⟩

/-- **C10.** After `init_subtitle_defaults` (arbitrary, possibly malformed
config input) and any sequence of `update_subtitle_settings` calls with
arbitrary payloads, the stored settings satisfy: `font_size_px ∈ [18, 140]`,
`background_opacity ∈ [0, 1]` with at most two decimals, and both colors
match the 3- or 6-digit lowercase hex pattern.  Moreover an individually
invalid field (failed `int(...)` / `float(...)` / regex) keeps its previous
value. -/
theorem c10_subtitle_settings_invariant :
    (∀ (cfgFF cfgFS cfgTC cfgBC cfgBO : PyVal) (nowIso : List Char)
        (ds : List (SubtitleData × List Char)),
        SettingsInv (ds.foldl (fun s d => (update_subtitle_settings d.1 d.2 s).1)
          (init_subtitle_defaults cfgFF cfgFS cfgTC cfgBC cfgBO nowIso))) ∧
    (∀ (data : SubtitleData) (nowIso : List Char) (cur : SubtitleSettings) (v : PyVal),
        data.font_size_px = some v → pyInt v = Option.none →
        (update_subtitle_settings data nowIso cur).1.font_size_px = cur.font_size_px) ∧
    (∀ (data : SubtitleData) (nowIso : List Char) (cur : SubtitleSettings) (v : PyVal),
        data.background_opacity = some v → pyFloat v = Option.none →
        (update_subtitle_settings data nowIso cur).1.background_opacity =
          cur.background_opacity) ∧
    (∀ (data : SubtitleData) (nowIso : List Char) (cur : SubtitleSettings) (v : PyVal),
        data.text_color = some v → hexCandidate v = Option.none →
        (update_subtitle_settings data nowIso cur).1.text_color = cur.text_color) ∧
    (∀ (data : SubtitleData) (nowIso : List Char) (cur : SubtitleSettings) (v : PyVal),
        data.background_color = some v → hexCandidate v = Option.none →
        (update_subtitle_settings data nowIso cur).1.background_color =
          cur.background_color) := by
  refine ⟨?_, ?_, ?_, ?_, ?_⟩
  · intro cfgFF cfgFS cfgTC cfgBC cfgBO nowIso ds
    have start := settings_inv_init cfgFF cfgFS cfgTC cfgBC cfgBO nowIso
    generalize (init_subtitle_defaults cfgFF cfgFS cfgTC cfgBC cfgBO nowIso) = s0 at start ⊢
    induction ds generalizing s0 with
    | nil => exact start
    | cons d ds ih =>
        exact ih _ (settings_inv_update d.1 d.2 s0 start)
  · intro data nowIso cur v hv hnone
    show sanitize_font_size (data.font_size_px.getD (PyVal.int cur.font_size_px))
      cur.font_size_px = cur.font_size_px
    rw [hv, Option.getD_some]
    unfold sanitize_font_size
    rw [hnone]
  · intro data nowIso cur v hv hnone
    show sanitize_opacity (data.background_opacity.getD
      (PyVal.float cur.background_opacity)) cur.background_opacity =
      cur.background_opacity
    rw [hv, Option.getD_some]
    unfold sanitize_opacity
    rw [hnone]
  · intro data nowIso cur v hv hnone
    show sanitize_hex_color (data.text_color.getD (PyVal.str cur.text_color))
      cur.text_color = cur.text_color
    rw [hv, Option.getD_some]
    unfold sanitize_hex_color
    rw [hnone]
    rfl
  · intro data nowIso cur v hv hnone
    show sanitize_hex_color (data.background_color.getD
      (PyVal.str cur.background_color)) cur.background_color = cur.background_color
    rw [hv, Option.getD_some]
    unfold sanitize_hex_color
    rw [hnone]
    rfl

/-- Witness for `c10_subtitle_settings_invariant`: a malformed config and a
malformed update still leave valid settings, and an unparseable font size
keeps the previous value. -/
theorem c10_subtitle_settings_invariant_witness :
    SettingsInv
      ([(⟨Option.none, some (PyVal.str (chars "huge")), some (PyVal.str (chars "red")),
          Option.none, some (PyVal.str (chars "opaque"))⟩, chars "t1")].foldl
        (fun s d => (update_subtitle_settings d.1 d.2 s).1)
        (init_subtitle_defaults (PyVal.int 3) (PyVal.str (chars "9000"))
          (PyVal.str (chars "not-a-color")) (PyVal.none) (PyVal.float 2) (chars "t0"))) ∧
    (update_subtitle_settings
        ⟨Option.none, some (PyVal.str (chars "huge")), Option.none, Option.none,
          Option.none⟩ (chars "t1")
        (init_subtitle_defaults (PyVal.int 3) (PyVal.str (chars "9000"))
          (PyVal.str (chars "not-a-color")) (PyVal.none) (PyVal.float 2)
          (chars "t0"))).1.font_size_px =
      (init_subtitle_defaults (PyVal.int 3) (PyVal.str (chars "9000"))
        (PyVal.str (chars "not-a-color")) (PyVal.none) (PyVal.float 2)
        (chars "t0")).font_size_px := by
  constructor
  · exact c10_subtitle_settings_invariant.1 (PyVal.int 3) (PyVal.str (chars "9000"))
      (PyVal.str (chars "not-a-color")) (PyVal.none) (PyVal.float 2) (chars "t0") _
  · exact c10_subtitle_settings_invariant.2.1 _ (chars "t1") _ (PyVal.str (chars "huge"))
      rfl (by decide)
